import Mathlib

/-!
Verification development for the CPF-lookup webhook service (`app.py`).

Strings from the Python source are modelled as `List Char` (Python `str`),
Python `None`-able values as `Option`, JSON dicts with a fixed field set as
structures, and the two persisted JSON collections (accounts, logs) as
insertion-ordered association lists, matching Python 3.7+ `dict` order.
-/

namespace Apicpf

/-- Numeric value of a decimal digit character, modelling Python `int(c)`
for `c` a single digit character `'0'`..`'9'` (the callers in `app.py` only
apply `int` to characters of digit-only strings). -/
def digitVal (c : Char) : Nat := c.toNat - 48

/-- Embedding of `validar_cpf_rapido` (app.py:189-200).
`cpf == cpf[0] * 11` is the all-identical test; `cpf[-2:]` equals
`cpf.drop 9` because that branch is only reached when the length is 11;
`f"{d1}{d2}"` is the concatenation of the decimal representations. -/
def validar_cpf_rapido (cpf : List Char) : Bool :=
  if cpf.isEmpty || cpf.length != 11 || cpf == List.replicate 11 (cpf.headD ' ') then
    false
  else
    let soma1 := ((List.range 9).map (fun i => digitVal (cpf.getD i ' ') * (10 - i))).sum
    let d1 := if soma1 % 11 < 2 then 0 else 11 - soma1 % 11
    let soma2 := ((List.range 10).map (fun i => digitVal (cpf.getD i ' ') * (11 - i))).sum
    let d2 := if soma2 % 11 < 2 then 0 else 11 - soma2 % 11
    cpf.drop 9 == (Nat.repr d1).data ++ (Nat.repr d2).data

/-- The weighted checksum sum described by the spec: digit `i` (0-indexed)
of the first `n` digits of `s`, weighted by `(w - i)`, summed. -/
def specSoma (s : List Char) (n w : Nat) : Nat :=
  ((List.range n).map (fun i => digitVal (s.getD i ' ') * (w - i))).sum

/-- The spec's check digit: the weighted sum mod 11, then `0` if the
remainder is below 2 and `11 - remainder` otherwise. -/
def specDigit (s : List Char) (n w : Nat) : Nat :=
  if specSoma s n w % 11 < 2 then 0 else 11 - specSoma s n w % 11

/-- The validity notion stated by the spec for an 11-character digit string:
not eleven copies of one digit, and the last two characters are the two
check digits written as decimal digit characters. -/
def cpfSpecValid (s : List Char) : Prop :=
  (¬ ∃ c, s = List.replicate 11 c) ∧
  s.getD 9 ' ' = Nat.digitChar (specDigit s 9 10) ∧
  s.getD 10 ' ' = Nat.digitChar (specDigit s 10 11)

theorem specDigit_le_nine (s : List Char) (n w : Nat) : specDigit s n w ≤ 9 := by
  unfold specDigit
  have h : specSoma s n w % 11 < 11 := Nat.mod_lt _ (by omega)
  split <;> omega

theorem repr_digit_single (d : Nat) (hd : d ≤ 9) :
    (Nat.repr d).data = [Nat.digitChar d] := by
  interval_cases d <;> decide

theorem drop_eq_pair (d : Char) :
    ∀ (i : Nat) (l : List Char), l.length = i + 2 →
      l.drop i = [l.getD i d, l.getD (i + 1) d] := by
  intro i
  induction i with
  | zero =>
    intro l hl
    rcases l with _ | ⟨a, l⟩
    · simp at hl
    rcases l with _ | ⟨b, l⟩
    · simp at hl
    rcases l with _ | ⟨c, l⟩
    · rfl
    · simp at hl
  | succ n ih =>
    intro l hl
    rcases l with _ | ⟨a, l⟩
    · simp at hl
    have hl' : l.length = n + 2 := by simpa using hl
    simpa using ih l hl'

/-- **C1.** For every 11-character digit string `s`, `validar_cpf_rapido`
returns valid iff `s` is not eleven copies of a single digit and the last
two characters of `s` are the decimal digits `d1` then `d2`, where `d1` is
computed from the first 9 digits weighted by `(10 - i)` and `d2` from the
first 10 digits weighted by `(11 - i)`, each summed, taken mod 11, with the
`0`-if-remainder-below-2-else-`11 - remainder` rule. -/
theorem C1_checksum_validator (s : List Char) (hlen : s.length = 11)
    (hdig : ∀ c ∈ s, c.isDigit) :
    validar_cpf_rapido s = true ↔ cpfSpecValid s := by
  unfold validar_cpf_rapido
  have h1 : s.isEmpty = false := by
    rcases s with _ | ⟨a, t⟩
    · simp at hlen
    · rfl
  have h2 : (s.length != 11) = false := by simp [hlen]
  rw [h1, h2]
  simp only [Bool.false_or]
  by_cases hrep : s = List.replicate 11 (s.headD ' ')
  · rw [if_pos (by simpa using hrep)]
    constructor
    · intro h; simp at h
    · intro h
      exact absurd ⟨s.headD ' ', hrep⟩ h.1
  · rw [if_neg (by simpa using hrep)]
    have hnoc : ¬ ∃ c, s = List.replicate 11 c := by
      rintro ⟨c, rfl⟩
      exact hrep (by simp [List.replicate_succ])
    have hb1 : ((Nat.repr (specDigit s 9 10)).data : List Char)
        = [Nat.digitChar (specDigit s 9 10)] :=
      repr_digit_single _ (specDigit_le_nine s 9 10)
    have hb2 : ((Nat.repr (specDigit s 10 11)).data : List Char)
        = [Nat.digitChar (specDigit s 10 11)] :=
      repr_digit_single _ (specDigit_le_nine s 10 11)
    have hdrop : s.drop 9 = [s.getD 9 ' ', s.getD 10 ' '] :=
      drop_eq_pair ' ' 9 s (by omega)
    show (s.drop 9 == (Nat.repr (specDigit s 9 10)).data
        ++ (Nat.repr (specDigit s 10 11)).data) = true ↔ cpfSpecValid s
    rw [hb1, hb2, hdrop]
    simp only [List.cons_append, List.nil_append, beq_iff_eq, List.cons.injEq,
      and_true, cpfSpecValid]
    constructor
    · rintro ⟨ha, hb⟩; exact ⟨hnoc, ha, hb⟩
    · rintro ⟨-, ha, hb⟩; exact ⟨ha, hb⟩

/-- Witness for C1 at the known-valid example `11144477735`. -/
theorem C1_checksum_validator_witness : cpfSpecValid "11144477735".data :=
  (C1_checksum_validator "11144477735".data (by decide) (by decide)).mp (by decide)

/-- Consume exactly `n` leading digit characters (the regex `\d{n}`),
returning the rest of the input, or fail. -/
def takeDigits : Nat → List Char → Option (List Char)
  | 0, rest => some rest
  | _ + 1, [] => none
  | n + 1, c :: rest => if c.isDigit then takeDigits n rest else none

/-- Consume one optional leading occurrence of `ch` (the regex `[x]?`). -/
def skipOpt (ch : Char) : List Char → List Char
  | [] => []
  | c :: rest => if c = ch then rest else c :: rest

/-- Deterministic match of the pattern
`\d{2}[\.]?\d{3}[\.]?\d{3}[\/]?\d{4}[\-]?\d{2}` (app.py:160) at the head of
the input.  The optional separator classes are disjoint from `\d`, so the
regex engine's greedy matching never backtracks and this function computes
the same result. -/
def matchCNPJAt (s : List Char) : Bool :=
  ((takeDigits 2 s).bind (fun s1 =>
   (takeDigits 3 (skipOpt '.' s1)).bind (fun s2 =>
   (takeDigits 3 (skipOpt '.' s2)).bind (fun s3 =>
   (takeDigits 4 (skipOpt '/' s3)).bind (fun s4 =>
   takeDigits 2 (skipOpt '-' s4)))))).isSome

/-- `re.search` of that pattern: some start position matches. -/
def searchCNPJ (s : List Char) : Bool :=
  s.tails.any matchCNPJAt

/-- Embedding of `detectar_cnpj` (app.py:150-164). -/
def detectar_cnpj (texto : List Char) : Bool :=
  if texto.isEmpty then false
  else
    let numeros := texto.filter Char.isDigit
    if numeros.length = 14 then true
    else searchCNPJ texto

/-- Embedding of `extrair_cpf` (app.py:167-186).  The `for` loop over
`range(len(numeros) - 10)` that returns the first validating window is
`List.findSome?` over that range. -/
def extrair_cpf (texto : List Char) : Option (List Char) :=
  if texto.isEmpty then none
  else if detectar_cnpj texto then none
  else
    let numeros := texto.filter Char.isDigit
    if numeros.length = 14 then none
    else if 11 ≤ numeros.length then
      (List.range (numeros.length - 10)).findSome? (fun i =>
        let cpf_candidato := (numeros.drop i).take 11
        if validar_cpf_rapido cpf_candidato then some cpf_candidato else none)
    else none

/-- An optional single-character separator, as the claim words it. -/
def sepOpt (c : Char) (s : List Char) : Prop := s = [] ∨ s = [c]

/-- The claim's CNPJ shape: somewhere in the text, 2 digits, 3 digits,
3 digits, 4 digits, 2 digits, with optional `.`, `.`, `/`, `-` separators
between the groups. -/
def hasCNPJShape (t : List Char) : Prop :=
  ∃ pre g1 s1 g2 s2 g3 s3 g4 s4 g5 post : List Char,
    t = pre ++ g1 ++ s1 ++ g2 ++ s2 ++ g3 ++ s3 ++ g4 ++ s4 ++ g5 ++ post ∧
    g1.length = 2 ∧ (∀ c ∈ g1, c.isDigit) ∧ sepOpt '.' s1 ∧
    g2.length = 3 ∧ (∀ c ∈ g2, c.isDigit) ∧ sepOpt '.' s2 ∧
    g3.length = 3 ∧ (∀ c ∈ g3, c.isDigit) ∧ sepOpt '/' s3 ∧
    g4.length = 4 ∧ (∀ c ∈ g4, c.isDigit) ∧ sepOpt '-' s4 ∧
    g5.length = 2 ∧ (∀ c ∈ g5, c.isDigit)

theorem takeDigits_of_len (n : Nat) (g r : List Char) (hn : g.length = n)
    (hd : ∀ c ∈ g, c.isDigit) : takeDigits n (g ++ r) = some r := by
  subst hn
  induction g with
  | nil => rfl
  | cons c g ih =>
    simp only [List.length_cons, List.cons_append, takeDigits]
    rw [if_pos (hd c (by simp))]
    exact ih (fun x hx => hd x (by simp [hx]))

theorem skipOpt_sep (c : Char) (hc : c.isDigit = false) (s r : List Char)
    (hs : sepOpt c s) (hr : ∀ x ∈ r.take 1, x.isDigit) :
    skipOpt c (s ++ r) = r := by
  rcases hs with rfl | rfl
  · rcases r with _ | ⟨x, r⟩
    · rfl
    · have hx : ¬ x = c := by
        intro h
        have hd := hr x (by simp)
        rw [h, hc] at hd
        simp at hd
      simp only [List.nil_append, skipOpt, if_neg hx]
  · simp [skipOpt]

theorem take_one_digit (g r : List Char) (hg : 0 < g.length)
    (hd : ∀ c ∈ g, c.isDigit) : ∀ x ∈ (g ++ r).take 1, x.isDigit := by
  rcases g with _ | ⟨a, g⟩
  · simp at hg
  · intro x hx
    have hx' : x = a := by simpa using hx
    rw [hx']
    exact hd a (by simp)

theorem matchCNPJAt_shape (g1 s1 g2 s2 g3 s3 g4 s4 g5 post : List Char)
    (h1 : g1.length = 2) (d1 : ∀ c ∈ g1, c.isDigit) (hs1 : sepOpt '.' s1)
    (h2 : g2.length = 3) (d2 : ∀ c ∈ g2, c.isDigit) (hs2 : sepOpt '.' s2)
    (h3 : g3.length = 3) (d3 : ∀ c ∈ g3, c.isDigit) (hs3 : sepOpt '/' s3)
    (h4 : g4.length = 4) (d4 : ∀ c ∈ g4, c.isDigit) (hs4 : sepOpt '-' s4)
    (h5 : g5.length = 2) (d5 : ∀ c ∈ g5, c.isDigit) :
    matchCNPJAt (g1 ++ (s1 ++ (g2 ++ (s2 ++ (g3 ++ (s3 ++ (g4 ++ (s4 ++ (g5 ++ post))))))))) = true := by
  unfold matchCNPJAt
  rw [takeDigits_of_len 2 g1 _ h1 d1]
  simp only [Option.some_bind]
  rw [skipOpt_sep '.' (by decide) s1 _ hs1
    (take_one_digit g2 _ (by omega) d2)]
  rw [takeDigits_of_len 3 g2 _ h2 d2]
  simp only [Option.some_bind]
  rw [skipOpt_sep '.' (by decide) s2 _ hs2
    (take_one_digit g3 _ (by omega) d3)]
  rw [takeDigits_of_len 3 g3 _ h3 d3]
  simp only [Option.some_bind]
  rw [skipOpt_sep '/' (by decide) s3 _ hs3
    (take_one_digit g4 _ (by omega) d4)]
  rw [takeDigits_of_len 4 g4 _ h4 d4]
  simp only [Option.some_bind]
  rw [skipOpt_sep '-' (by decide) s4 _ hs4
    (take_one_digit g5 _ (by omega) d5)]
  rw [takeDigits_of_len 2 g5 _ h5 d5]
  rfl

theorem searchCNPJ_of_shape (t : List Char) (h : hasCNPJShape t) :
    searchCNPJ t = true := by
  obtain ⟨pre, g1, s1, g2, s2, g3, s3, g4, s4, g5, post, rfl, h1, d1, hs1,
    h2, d2, hs2, h3, d3, hs3, h4, d4, hs4, h5, d5⟩ := h
  unfold searchCNPJ
  rw [List.any_eq_true]
  refine ⟨g1 ++ (s1 ++ (g2 ++ (s2 ++ (g3 ++ (s3 ++ (g4 ++ (s4 ++ (g5 ++ post)))))))), ?_, ?_⟩
  · rw [List.mem_tails]
    exact ⟨pre, by simp [List.append_assoc]⟩
  · exact matchCNPJAt_shape g1 s1 g2 s2 g3 s3 g4 s4 g5 post
      h1 d1 hs1 h2 d2 hs2 h3 d3 hs3 h4 d4 hs4 h5 d5

/-- **C2.** If the text's stripped digits number exactly 14, or the text
contains a CNPJ-shaped pattern (2-3-3-4-2 digit groups with optional
separators, which any run of 14 consecutive digits instantiates), then
`extrair_cpf` returns "none found", even when a checksum-valid 11-digit
substring exists inside the text. -/
theorem C2_cnpj_rejection (texto : List Char)
    (h : (texto.filter Char.isDigit).length = 14 ∨ hasCNPJShape texto) :
    extrair_cpf texto = none := by
  have hne : texto.isEmpty = false := by
    rcases h with h | h
    · rcases texto with _ | _
      · simp at h
      · rfl
    · obtain ⟨pre, g1, s1, g2, s2, g3, s3, g4, s4, g5, post, rfl, h1, -⟩ := h
      rcases g1 with _ | _
      · simp at h1
      · rcases pre with _ | _ <;> rfl
  have hdet : detectar_cnpj texto = true := by
    unfold detectar_cnpj
    rw [hne]
    simp only [Bool.false_eq_true, if_false]
    rcases h with h | h
    · rw [if_pos h]
    · split
      · rfl
      · exact searchCNPJ_of_shape texto h
  unfold extrair_cpf
  rw [hne, hdet]
  simp

/-- Witness for C2: a text whose 14 stripped digits contain the
checksum-valid CPF `11144477735`, still rejected. -/
theorem C2_cnpj_rejection_witness :
    validar_cpf_rapido "11144477735".data = true ∧
    extrair_cpf "11144477735123".data = none :=
  ⟨by decide, C2_cnpj_rejection "11144477735123".data (Or.inl (by decide))⟩

theorem findSome_range'_first {α : Type} (f : Nat → Option α) :
    ∀ (n start i : Nat) (a : α), i < n → f (start + i) = some a →
      (∀ j, j < i → f (start + j) = none) →
      (List.range' start n).findSome? f = some a := by
  intro n
  induction n with
  | zero => intro start i a hi; omega
  | succ n ih =>
    intro start i a hi hf hj
    rw [List.range'_succ, List.findSome?_cons]
    rcases i with _ | i
    · rw [show start + 0 = start from rfl] at hf
      rw [hf]
    · have h0 : f start = none := by
        have := hj 0 (by omega)
        simpa using this
      rw [h0]
      exact ih (start + 1) i a (by omega)
        (by rw [show start + 1 + i = start + (i + 1) from by omega]; exact hf)
        (fun j hjlt => by
          rw [show start + 1 + j = start + (j + 1) from by omega]
          exact hj (j + 1) (by omega))

/-- **C3 (amended).** Provided the CNPJ detector does not flag the text,
`extrair_cpf` returns the leftmost checksum-valid 11-character window of
the stripped digit string. -/
theorem C3_leftmost_window (texto : List Char) (i : Nat)
    (hc : detectar_cnpj texto = false)
    (hi : i + 11 ≤ (texto.filter Char.isDigit).length)
    (hvalid : validar_cpf_rapido (((texto.filter Char.isDigit).drop i).take 11) = true)
    (hmin : ∀ j, j < i →
      validar_cpf_rapido (((texto.filter Char.isDigit).drop j).take 11) = false) :
    extrair_cpf texto = some (((texto.filter Char.isDigit).drop i).take 11) := by
  have hne : texto.isEmpty = false := by
    rcases texto with _ | _
    · simp at hi
    · rfl
  have h14 : ¬ (texto.filter Char.isDigit).length = 14 := by
    intro h
    rw [detectar_cnpj, hne] at hc
    simp only [Bool.false_eq_true, if_false, h, if_pos] at hc
    simp at hc
  unfold extrair_cpf
  rw [hne, hc]
  simp only [Bool.false_eq_true, if_false]
  rw [if_neg h14, if_pos (by omega)]
  rw [List.range_eq_range']
  exact findSome_range'_first _ _ 0 i _ (by omega)
    (by simp [hvalid])
    (fun j hjlt => by simp [hmin j hjlt])

/-- **C3 as stated fails**: `111.444.777-35999` contains the
punctuation-separated checksum-valid CPF `111.444.777-35` followed by the
trailing noise digits `999`, yet extraction returns "none found", because
the 14 stripped digits make the CNPJ guard reject the whole text. -/
theorem C3_counterexample :
    "111.444.777-35999".data = "111.444.777-35".data ++ "999".data ∧
    validar_cpf_rapido "11144477735".data = true ∧
    (∀ c ∈ "999".data, c.isDigit) ∧
    extrair_cpf "111.444.777-35999".data = none :=
  ⟨by decide, by decide, by decide, by decide⟩

/-- Witness for the amended C3: punctuation-separated valid CPF plus two
trailing noise digits (13 digits total, not CNPJ-shaped) is extracted as
the leftmost valid window. -/
theorem C3_leftmost_window_witness :
    extrair_cpf "111.444.777-3599".data
      = some ((("111.444.777-3599".data.filter Char.isDigit).drop 0).take 11) :=
  C3_leftmost_window _ 0 (by decide) (by decide) (by decide)
    (fun j hj => absurd hj (Nat.not_lt_zero j))

/-- The module-level default reply template (app.py:36-44). -/
def DEFAULT_TEMPLATE : String :=
  "Olá! Encontrei os dados do CPF consultado:\n\nCPF: {cpf_mascarado}\nNome: {nome}\nNascimento: {nascimento}\nSexo: {sexo}\nMãe: {nome_mae}\n\nCaso precise de mais informações, estou à disposição."

/-- A stored account record, the value side of the persisted `accounts.json`
dict (all fields are written by the create handler, app.py:348-355). -/
structure Account where
  name : String
  crm_api_key : String
  message_template : String
  formato_cpf : String
  msg_erro : String
  created_at : String
deriving DecidableEq

/-- The accounts collection: a Python 3.7+ dict keyed by account id, i.e.
an insertion-ordered association list. -/
abbrev AccountStore := List (String × Account)

/-- Python dict lookup `d.get(k)` on an insertion-ordered dict. -/
def alist_get {α : Type} (l : List (String × α)) (k : String) : Option α :=
  (l.find? (fun p => p.1 == k)).map (fun p => p.2)

/-- Python dict assignment `d[k] = v`: replaces in place when the key
exists, otherwise appends, preserving insertion order. -/
def alist_put {α : Type} (l : List (String × α)) (k : String) (v : α) :
    List (String × α) :=
  if l.any (fun p => p.1 == k) then
    l.map (fun p => if p.1 == k then (k, v) else p)
  else l ++ [(k, v)]

/-- Python `s[-n:]` (the last `n` characters, or the whole string when it
is shorter than `n`). -/
def pyLastSlice (s : String) (n : Nat) : String :=
  String.mk (s.data.drop (s.data.length - n))

/-- The masked credential preview of the list endpoint (app.py:334):
`'***' + key[-10:] if len(key) > 10 else ''`. -/
def key_preview (key : String) : String :=
  if key.length > 10 then "***" ++ pyLastSlice key 10 else ""

/-- One element of the GET `/api/accounts` response list. -/
structure AccountListItem where
  id : String
  name : String
  crm_api_key_preview : String
deriving DecidableEq

/-- Embedding of the GET branch of `api_accounts` (app.py:326-336): one
item per account, in store order, holding only id, name and the masked
preview. -/
def api_accounts_list (accounts : AccountStore) : List AccountListItem :=
  accounts.map (fun p =>
    { id := p.1, name := p.2.name, crm_api_key_preview := key_preview p.2.crm_api_key })

/-- The GET `/api/accounts/<id>` response payload. -/
structure AccountGetPayload where
  id : String
  name : String
  crm_api_key : String
  message_template : String
  formato_cpf : String
  msg_erro : String
  created_at : String
  crm_api_key_preview : Option String
deriving DecidableEq

/-- Embedding of the GET branch of `api_account` (app.py:370-376): the
response is a copy of the stored record with `id` added and, when the key
is longer than 10 characters, a preview field added.  The source only adds
the preview; it never removes the full `crm_api_key` from the copied dict. -/
def api_account_get (accounts : AccountStore) (account_id : String) :
    Option AccountGetPayload :=
  match alist_get accounts account_id with
  | none => none
  | some acc => some
      { id := account_id
        name := acc.name
        crm_api_key := acc.crm_api_key
        message_template := acc.message_template
        formato_cpf := acc.formato_cpf
        msg_erro := acc.msg_erro
        created_at := acc.created_at
        crm_api_key_preview :=
          if acc.crm_api_key.length > 10 then
            some ("***" ++ pyLastSlice acc.crm_api_key 10)
          else none }

/-- **C4 fails in the code (code bug).** The account-get response contains
the account's full CRM credential: the handler copies the stored dict,
`crm_api_key` included, and only adds a preview field — despite its own
"# Mascara a chave" comment and the spec's "never returned in full".  Here
the full secret `SECRETKEY12345` appears verbatim in the returned payload
next to its masked preview. -/
theorem C4_full_credential_in_get_response :
    (api_account_get
        [("acc_1", { name := "Conta", crm_api_key := "SECRETKEY12345",
                     message_template := "t", formato_cpf := "mascarado",
                     msg_erro := "e", created_at := "2024" })] "acc_1").map
      (fun p => (p.crm_api_key, p.crm_api_key_preview))
      = some ("SECRETKEY12345", some "***ETKEY12345") := by
  rfl

/-- A PUT body for `api_account`; `none` models an absent JSON field,
`some ""` an explicit empty string. -/
structure UpdatePayload where
  name : Option String
  crm_api_key : Option String
  message_template : Option String
  formato_cpf : Option String
  msg_erro : Option String
deriving DecidableEq

/-- Embedding of the PUT branch of `api_account` (app.py:378-395): the
field merge applied to the stored record.  Note the credential guard
`if 'crm_api_key' in data and data['crm_api_key']`: an empty string is
falsy in Python, so an explicit empty credential is ignored. -/
def apply_update (acc : Account) (d : UpdatePayload) : Account :=
  let a1 := match d.name with
    | some v => { acc with name := v }
    | none => acc
  let a2 := match d.crm_api_key with
    | some v => if v ≠ "" then { a1 with crm_api_key := v } else a1
    | none => a1
  let a3 := match d.message_template with
    | some v => { a2 with message_template := v }
    | none => a2
  let a4 := match d.formato_cpf with
    | some v => { a3 with formato_cpf := v }
    | none => a3
  match d.msg_erro with
  | some v => { a4 with msg_erro := v }
  | none => a4

/-- **C5 as stated fails**: supplying an explicit empty string for
`crm_api_key` does not set the field to the empty string — the update is
silently ignored and the prior credential kept. -/
theorem C5_counterexample :
    (apply_update
        { name := "Conta", crm_api_key := "oldkey", message_template := "t",
          formato_cpf := "mascarado", msg_erro := "e", created_at := "2024" }
        { name := none, crm_api_key := some "", message_template := none,
          formato_cpf := none, msg_erro := none }).crm_api_key = "oldkey" ∧
    ("oldkey" : String) ≠ "" :=
  ⟨rfl, by decide⟩

/-- **C5 (amended).** The update changes exactly the supplied fields and
leaves every unsupplied field byte-identical to its prior value; an
explicit empty string is a valid update for `name`, `message_template`,
`formato_cpf` and `msg_erro`, but an explicit empty `crm_api_key` is
ignored, keeping the prior credential. -/
theorem C5_partial_update_frame (acc : Account) (d : UpdatePayload) :
    (apply_update acc d).name = d.name.getD acc.name ∧
    (apply_update acc d).crm_api_key =
      (match d.crm_api_key with
        | some v => if v = "" then acc.crm_api_key else v
        | none => acc.crm_api_key) ∧
    (apply_update acc d).message_template
      = d.message_template.getD acc.message_template ∧
    (apply_update acc d).formato_cpf = d.formato_cpf.getD acc.formato_cpf ∧
    (apply_update acc d).msg_erro = d.msg_erro.getD acc.msg_erro ∧
    (apply_update acc d).created_at = acc.created_at := by
  obtain ⟨n, k, t, f, e⟩ := d
  rcases n with _ | n <;> rcases k with _ | k <;>
    rcases t with _ | t <;> rcases f with _ | f <;> rcases e with _ | e <;>
    simp [apply_update] <;> split_ifs <;> simp_all

/-- One activity log entry, the dict built by `add_log` (app.py:125-134). -/
structure LogEntry where
  data : String
  tipo : String
  cpf : String
  status : String
  detalhes : String
  lead_phone : String
  lead_name : String
  account_name : String
deriving DecidableEq

/-- The logs collection: a dict from account id to its entry list. -/
abbrev LogStore := List (String × List LogEntry)

/-- The entry dict literal of `add_log` (app.py:125-134), including the
Python-falsy fallbacks `cpf if cpf else '-'`, `lead_phone or '-'` and
`lead_name or '-'`. -/
def mkLogEntry (now tipo cpf status detalhes lead_phone lead_name
    resolved_name : String) : LogEntry :=
  { data := now
    tipo := tipo
    cpf := if cpf = "" then "-" else cpf
    status := status
    detalhes := detalhes
    lead_phone := if lead_phone = "" then "-" else lead_phone
    lead_name := if lead_name = "" then "-" else lead_name
    account_name := resolved_name }

/-- `add_log`'s account-name fallback (app.py:118-120): when the caller
passes an empty name, resolve it from the account store, defaulting to
`Desconhecida`. -/
def resolveLogName (accounts : AccountStore) (account_id account_name : String) :
    String :=
  if account_name = "" then
    match alist_get accounts account_id with
    | some acc => acc.name
    | none => "Desconhecida"
  else account_name

/-- Embedding of `add_log` (app.py:113-140): load the logs dict, default
the account's list to `[]`, insert the new entry at index 0, trim to the
most recent 500, store back. -/
def add_log (accounts : AccountStore) (logs : LogStore) (account_id : String)
    (tipo cpf status detalhes lead_phone lead_name account_name now : String) :
    LogStore :=
  let entry := mkLogEntry now tipo cpf status detalhes lead_phone lead_name
    (resolveLogName accounts account_id account_name)
  let cur := (alist_get logs account_id).getD []
  let l := entry :: cur
  let l := if l.length > 500 then l.take 500 else l
  alist_put logs account_id l

theorem alist_get_replace {α : Type} (k : String) (v : α) :
    ∀ l : List (String × α), (l.any fun p => p.1 == k) = true →
      alist_get (l.map fun p => if p.1 == k then (k, v) else p) k = some v := by
  intro l
  induction l with
  | nil => intro h; simp at h
  | cons q l ih =>
    intro h
    by_cases hq : (q.1 == k) = true
    · simp only [List.map_cons, if_pos hq]
      unfold alist_get
      rw [List.find?_cons_of_pos _ (by simp)]
      rfl
    · have hq' : (q.1 == k) = false := by simpa using hq
      have hl : (l.any fun p => p.1 == k) = true := by
        simp only [List.any_cons, hq', Bool.false_or] at h
        exact h
      simp only [List.map_cons, if_neg hq]
      unfold alist_get
      rw [List.find?_cons_of_neg _ (by simpa using hq)]
      exact ih hl

theorem alist_get_append_new {α : Type} (k : String) (v : α) :
    ∀ l : List (String × α), (l.any fun p => p.1 == k) = false →
      alist_get (l ++ [(k, v)]) k = some v := by
  intro l
  induction l with
  | nil => intro h; simp [alist_get]
  | cons q l ih =>
    intro h
    simp only [List.any_cons, Bool.or_eq_false_iff] at h
    rw [List.cons_append]
    unfold alist_get
    rw [List.find?_cons_of_neg _ (by rw [h.1]; exact Bool.false_ne_true)]
    exact ih h.2

theorem alist_get_put {α : Type} (l : List (String × α)) (k : String) (v : α) :
    alist_get (alist_put l k v) k = some v := by
  unfold alist_put
  split
  · exact alist_get_replace k v l (by assumption)
  · rename_i h
    exact alist_get_append_new k v l (Bool.eq_false_iff.mpr h)

/-- **C6.** After every `add_log` append the account's log holds at most
500 entries, newest-first with the new entry at the head and the prior
entries (trimmed to the first 499) behind it; appending when the log
already holds 500 entries evicts the oldest entry, leaving exactly 500. -/
theorem C6_log_cap (accounts : AccountStore) (logs : LogStore)
    (account_id tipo cpf status detalhes lead_phone lead_name account_name
      now : String)
    (hcap : ((alist_get logs account_id).getD []).length ≤ 500) :
    alist_get (add_log accounts logs account_id tipo cpf status detalhes
        lead_phone lead_name account_name now) account_id
      = some (mkLogEntry now tipo cpf status detalhes lead_phone lead_name
          (resolveLogName accounts account_id account_name)
          :: ((alist_get logs account_id).getD []).take 499) ∧
    (mkLogEntry now tipo cpf status detalhes lead_phone lead_name
        (resolveLogName accounts account_id account_name)
        :: ((alist_get logs account_id).getD []).take 499).length ≤ 500 ∧
    (((alist_get logs account_id).getD []).length = 500 →
      (mkLogEntry now tipo cpf status detalhes lead_phone lead_name
          (resolveLogName accounts account_id account_name)
          :: ((alist_get logs account_id).getD []).take 499).length = 500 ∧
      ((alist_get logs account_id).getD []).take 499
        = ((alist_get logs account_id).getD []).dropLast) := by
  have hmain : ∀ (entry : LogEntry) (cur : List LogEntry), cur.length ≤ 500 →
      (if (entry :: cur).length > 500 then (entry :: cur).take 500
        else entry :: cur) = entry :: cur.take 499 := by
    intro entry cur hc
    split
    · rename_i h
      rfl
    · rename_i h
      simp only [List.length_cons] at h
      rw [List.take_of_length_le (by omega)]
  refine ⟨?_, ?_, ?_⟩
  · simp only [add_log]
    rw [hmain _ _ hcap]
    exact alist_get_put logs account_id _
  · simp only [List.length_cons]
    have := List.length_take_le 499 ((alist_get logs account_id).getD [])
    omega
  · intro h500
    constructor
    · simp only [List.length_cons, List.length_take]
      omega
    · rw [List.dropLast_eq_take, h500]

/-- Witness for C6 at a log already holding exactly 500 entries. -/
theorem C6_log_cap_witness :
    alist_get (add_log [] [("acc_1", List.replicate 500
        (mkLogEntry "d" "TEST" "c" "Sucesso" "x" "p" "n" "a"))]
        "acc_1" "CONSULTA" "c2" "Sucesso" "x2" "p2" "n2" "a2" "d2") "acc_1"
      = some (mkLogEntry "d2" "CONSULTA" "c2" "Sucesso" "x2" "p2" "n2"
          (resolveLogName [] "acc_1" "a2")
          :: ((alist_get [("acc_1", List.replicate 500
              (mkLogEntry "d" "TEST" "c" "Sucesso" "x" "p" "n" "a"))]
              "acc_1").getD []).take 499) :=
  (C6_log_cap [] _ "acc_1" "CONSULTA" "c2" "Sucesso" "x2" "p2" "n2" "a2" "d2"
    (by
      have hg : alist_get [("acc_1", List.replicate 500
            (mkLogEntry "d" "TEST" "c" "Sucesso" "x" "p" "n" "a"))] "acc_1"
          = some (List.replicate 500
            (mkLogEntry "d" "TEST" "c" "Sucesso" "x" "p" "n" "a")) := by
        unfold alist_get
        rw [List.find?_cons_of_pos _ (by simp)]
        rfl
      rw [hg, Option.getD_some, List.length_replicate])).1

def lbrace : Char := Char.ofNat 123

def rbrace : Char := Char.ofNat 125

/-- Lookup of a format-field name in the substitution dict. -/
def lookupKey (vals : List (String × List Char)) (k : List Char) :
    Option (List Char) :=
  (vals.find? (fun p => p.1.data == k)).map (fun p => p.2)

/-- The two ways `str.format` can raise in `formatar_mensagem`: a missing
field name (`KeyError`, caught at app.py:302) and every other malformed
use of braces (`ValueError`/`IndexError`, not caught there). -/
inductive FmtError
  | keyError
  | valueError
deriving DecidableEq

/-- Scanner state for the `str.format` model: plain text, or inside a
field name with the accumulated (reversed) name characters. -/
inductive FmtMode
  | text
  | name (acc : List Char)

/-- Model of Python `str.format(**vals)` restricted to the usage in
`formatar_mensagem`: named `{field}` placeholders with string values and
`{{` / `}}` escapes.  A field name missing from `vals` is `.keyError`;
any other malformed brace use is `.valueError`. -/
def pyFormatCore (vals : List (String × List Char)) :
    FmtMode → List Char → Except FmtError (List Char)
  | .text, [] => .ok []
  | .text, [c] =>
    if c = lbrace ∨ c = rbrace then .error .valueError else .ok [c]
  | .text, c :: c2 :: rest =>
    if c = lbrace then
      if c2 = lbrace then
        (pyFormatCore vals .text rest).map (fun t => lbrace :: t)
      else if c2 = rbrace then .error .valueError
      else pyFormatCore vals (.name [c2]) rest
    else if c = rbrace then
      if c2 = rbrace then
        (pyFormatCore vals .text rest).map (fun t => rbrace :: t)
      else .error .valueError
    else (pyFormatCore vals .text (c2 :: rest)).map (fun t => c :: t)
  | .name _, [] => .error .valueError
  | .name acc, c :: rest =>
    if c = rbrace then
      match lookupKey vals acc.reverse with
      | some v => (pyFormatCore vals .text rest).map (fun t => v ++ t)
      | none => .error .keyError
    else pyFormatCore vals (.name (c :: acc)) rest

/-- ASCII whitespace removed by Python `str.strip()`. -/
def isPySpace (c : Char) : Bool :=
  c == ' ' || c == '\t' || c == '\n' || c == '\r' ||
    c == Char.ofNat 11 || c == Char.ofNat 12

/-- Python `str.strip()`. -/
def pyStrip (l : List Char) : List Char :=
  ((l.dropWhile isPySpace).reverse.dropWhile isPySpace).reverse

/-- Python `str.endswith(':')` on a character list. -/
def endsWithColon (l : List Char) : Bool :=
  match l.getLast? with
  | some c => c == ':'
  | none => false

/-- The line filter of `formatar_mensagem` (app.py:305-306): split on
newlines, keep a line unless its stripped text ends in a colon, except
that blank-after-strip lines are always kept, and rejoin. -/
def filterLines (m : List Char) : List Char :=
  List.intercalate ['\n']
    ((m.splitOn '\n').filter
      (fun l => !(endsWithColon (pyStrip l)) || (pyStrip l).isEmpty))

/-- Embedding of `formatar_cpf` (app.py:273-279); Python slices written
out for the 11-character identifiers its callers pass. -/
def formatar_cpf (cpf : List Char) (formato : String) : List Char :=
  if formato = "completo" then
    cpf.take 3 ++ ['.'] ++ ((cpf.drop 3).take 3) ++ ['.']
      ++ ((cpf.drop 6).take 3) ++ ['-'] ++ cpf.drop 9
  else if formato = "parcial" then
    "***".data ++ ((cpf.drop 3).take 6) ++ "**".data
  else
    cpf.take 3 ++ ".***.**".data ++ ((cpf.drop (cpf.length - 4)).take 2)
      ++ ['-'] ++ cpf.drop (cpf.length - 2)

/-- The person record returned by the CPF lookup collaborator; each field
optional, mirroring `dict.get` on the JSON object.  Only the fields read
by `app.py` are modelled. -/
structure DadosCPF where
  NOME : Option String
  nome : Option String
  NASC : Option String
  nascimento : Option String
  SEXO : Option String
  sexo : Option String
  NOME_MAE : Option String
  nome_mae : Option String
deriving DecidableEq

/-- Embedding of `formatar_mensagem` (app.py:282-306).  `.error` models an
exception escaping the function; only `KeyError` is caught there,
triggering the default-template fallback. -/
def formatar_mensagem (dados_cpf : Option DadosCPF) (cpf : List Char)
    (account : Account) : Except FmtError (List Char) :=
  match dados_cpf with
  | none => .ok account.msg_erro.data
  | some d =>
    let dados : List (String × List Char) := [
      ("cpf", cpf.take 3 ++ ['.'] ++ ((cpf.drop 3).take 3) ++ ['.']
        ++ ((cpf.drop 6).take 3) ++ ['-'] ++ cpf.drop 9),
      ("cpf_mascarado", formatar_cpf cpf account.formato_cpf),
      ("nome", (d.NOME.getD (d.nome.getD "Não disponível")).data),
      ("nascimento", (d.NASC.getD (d.nascimento.getD "")).data),
      ("sexo", (d.SEXO.getD (d.sexo.getD "")).data),
      ("nome_mae", (d.NOME_MAE.getD (d.nome_mae.getD "")).data)]
    match pyFormatCore dados .text account.message_template.data with
    | .ok mensagem => .ok (filterLines mensagem)
    | .error .keyError =>
      match pyFormatCore dados .text DEFAULT_TEMPLATE.data with
      | .ok mensagem => .ok (filterLines mensagem)
      | .error e => .error e
    | .error .valueError => .error .valueError

/-- One conversation message as consumed by the webhook after
`buscar_mensagens_conversa` filtered for `received == True`. -/
structure Msg where
  createdAt : String
  body : String
deriving DecidableEq

/-- The inbound webhook request (header and parsed JSON body). -/
structure WebhookRequest where
  header_api_key : Option String
  body_crm_api_key : String
  conversationId : Option String
  leadPhone : String
  leadName : String
  mensagem : Option String
deriving DecidableEq

/-- Results of the three external HTTP collaborators for one request:
the fetched (already received-filtered) conversation messages, the CPF
lookup record, and whether posting the reply succeeded (`None` from
`enviar_mensagem_conversa` on any failure). -/
structure ExternalResults where
  mensagens : Option (List Msg)
  lookup : Option DadosCPF
  send_ok : Bool
deriving DecidableEq

/-- The webhook's 200 payload (app.py:561-570). -/
structure SuccessPayload where
  cpf : List Char
  dados : Option DadosCPF
  mensagem_formatada : List Char
  conversationId : String
  mensagem_enviada : Bool
  account : String
deriving DecidableEq

/-- A webhook HTTP response: `ok` carries `success: true`, `err` a
non-200 status with `success: false` (the 400 invalid-CPF branch also
returns the found identifier). -/
inductive WebhookResponse
  | ok (p : SuccessPayload)
  | err (status : Nat) (error : String) (cpf_encontrado : Option (List Char))
deriving DecidableEq

/-- `api_key = request.headers.get('X-CRM-API-Key') or data.get('crm_api_key','')`
(app.py:503): a missing or empty header falls back to the body field. -/
def effectiveApiKey (req : WebhookRequest) : String :=
  match req.header_api_key with
  | some h => if h ≠ "" then h else req.body_crm_api_key
  | none => req.body_crm_api_key

/-- Embedding of `get_account_by_api_key` (app.py:105-111): first account
in store order whose credential equals the key. -/
def get_account_by_api_key (accounts : AccountStore) (api_key : String) :
    Option (String × Account) :=
  accounts.find? (fun p => p.2.crm_api_key == api_key)

/-- The history scan (app.py:526-537): stable-sort the fetched messages by
`createdAt` descending (Python `sorted(..., reverse=True)`), then take the
first extraction hit among the 10 most recent non-empty bodies. -/
def scanMessages (msgs : List Msg) : Option (List Char) :=
  let sorted := msgs.mergeSort (fun a b => decide (b.createdAt ≤ a.createdAt))
  (sorted.take 10).findSome?
    (fun m => if m.body ≠ "" then extrair_cpf m.body.data else none)

/-- The webhook body after account resolution (app.py:511-570), as a pure
function of the stores, the request and the collaborator results.
`.error` of the formatter propagates to the generic 500 handler
(app.py:572-573) without logging. -/
def webhook_resolved (accounts : AccountStore) (account_id : String)
    (account : Account) (logs : LogStore) (req : WebhookRequest)
    (ext : ExternalResults) (now : String) : WebhookResponse × LogStore :=
  let conversation_id := (req.conversationId).getD ""
  if conversation_id = "" then
    (.err 400 "conversationId é obrigatório" none,
     add_log accounts logs account_id "WEBHOOK" "-" "Erro"
       "conversationId não fornecido" req.leadPhone req.leadName "" now)
  else
    let cpf0 : Option (List Char) := match req.mensagem with
      | some m => if m ≠ "" then extrair_cpf m.data else none
      | none => none
    let cpf1 : Option (List Char) := match cpf0 with
      | some c => some c
      | none =>
        match ext.mensagens with
        | some msgs => if msgs.isEmpty then none else scanMessages msgs
        | none => none
    match cpf1 with
    | none =>
      (.err 404 "CPF não encontrado nas mensagens" none,
       add_log accounts logs account_id "CONSULTA" "-" "Erro"
         "CPF não encontrado" req.leadPhone req.leadName "" now)
    | some cpf =>
      if validar_cpf_rapido cpf = false then
        (.err 400 "CPF inválido" (some cpf),
         add_log accounts logs account_id "CONSULTA" (String.mk cpf) "Erro"
           "CPF inválido" req.leadPhone req.leadName "" now)
      else
        match formatar_mensagem ext.lookup cpf account with
        | .error _ => (.err 500 "exception" none, logs)
        | .ok mensagem_resposta =>
          let nome_titular := match ext.lookup with
            | some d => d.NOME.getD (d.nome.getD "")
            | none => ""
          if ext.send_ok then
            (.ok { cpf := cpf, dados := ext.lookup,
                   mensagem_formatada := mensagem_resposta,
                   conversationId := conversation_id,
                   mensagem_enviada := true, account := account.name },
             add_log accounts logs account_id "CONSULTA" (String.mk cpf)
               "Sucesso" ("Titular: " ++ nome_titular) req.leadPhone
               req.leadName "" now)
          else
            (.ok { cpf := cpf, dados := ext.lookup,
                   mensagem_formatada := mensagem_resposta,
                   conversationId := conversation_id,
                   mensagem_enviada := false, account := account.name },
             add_log accounts logs account_id "CONSULTA" (String.mk cpf)
               "Parcial" ("Titular: " ++ nome_titular ++ " (msg não enviada)")
               req.leadPhone req.leadName "" now)

/-- Embedding of `webhook_datacrazy` (app.py:496-573): resolve the account
by credential, else 401 without touching the log store. -/
def webhook_datacrazy (accounts : AccountStore) (logs : LogStore)
    (req : WebhookRequest) (ext : ExternalResults) (now : String) :
    WebhookResponse × LogStore :=
  match get_account_by_api_key accounts (effectiveApiKey req) with
  | none => (.err 401 "Conta não encontrada para esta chave de API" none, logs)
  | some (account_id, account) =>
    webhook_resolved accounts account_id account logs req ext now

/-- Embedding of the POST branch of `api_accounts` (app.py:338-359):
defaults for absent body fields, a time-plus-count generated id, and the
new record written through dict assignment. -/
def api_accounts_create (accounts : AccountStore)
    (payload_name payload_key : Option String) (now_id now_iso : String) :
    AccountStore × String :=
  let name := payload_name.getD "Nova Conta"
  let crm_api_key := payload_key.getD ""
  let acc_id := "acc_" ++ now_id ++ "_" ++ toString accounts.length
  (alist_put accounts acc_id
    { name := name
      crm_api_key := crm_api_key
      message_template := DEFAULT_TEMPLATE
      formato_cpf := "mascarado"
      msg_erro := "Desculpe, não foi possível consultar os dados do CPF informado."
      created_at := now_iso },
   acc_id)

theorem extrair_cpf_valid (texto c : List Char)
    (h : extrair_cpf texto = some c) : validar_cpf_rapido c = true := by
  simp only [extrair_cpf] at h
  split at h
  · simp at h
  · split at h
    · simp at h
    · split at h
      · simp at h
      · split at h
        · obtain ⟨i, -, hf⟩ := List.exists_of_findSome?_eq_some h
          split at hf
          · rename_i hvalid
            obtain rfl := Option.some.inj hf
            exact hvalid
          · simp at hf
        · simp at h

theorem cons_trim (e : LogEntry) (cur : List LogEntry) :
    ∃ rest, (if (e :: cur).length > 500 then (e :: cur).take 500
      else e :: cur) = e :: rest := by
  split
  · exact ⟨cur.take 499, rfl⟩
  · exact ⟨cur, rfl⟩

theorem add_log_head (accounts : AccountStore) (logs : LogStore)
    (account_id tipo cpf status detalhes lead_phone lead_name account_name
      now : String) :
    ∃ rest, alist_get (add_log accounts logs account_id tipo cpf status
        detalhes lead_phone lead_name account_name now) account_id
      = some (mkLogEntry now tipo cpf status detalhes lead_phone lead_name
          (resolveLogName accounts account_id account_name) :: rest) := by
  obtain ⟨rest, hr⟩ := cons_trim
    (mkLogEntry now tipo cpf status detalhes lead_phone lead_name
      (resolveLogName accounts account_id account_name))
    ((alist_get logs account_id).getD [])
  refine ⟨rest, ?_⟩
  simp only [add_log]
  rw [hr]
  exact alist_get_put logs account_id _

/-- The identifier produced by the webhook's extraction phase
(app.py:520-537): the direct message if it yields one, otherwise the
history scan. -/
theorem extracted_cpf_valid (req : WebhookRequest) (ext : ExternalResults)
    (cpf : List Char)
    (h : (match (match req.mensagem with
        | some m => if m ≠ "" then extrair_cpf m.data else none
        | none => none) with
      | some c => some c
      | none =>
        match ext.mensagens with
        | some msgs => if msgs.isEmpty then none else scanMessages msgs
        | none => none) = some cpf) : validar_cpf_rapido cpf = true := by
  split at h
  · rename_i c heq
    obtain rfl := Option.some.inj h
    split at heq
    · split at heq
      · exact extrair_cpf_valid _ _ heq
      · simp at heq
    · simp at heq
  · split at h
    · split at h
      · simp at h
      · unfold scanMessages at h
        obtain ⟨mm, -, hf⟩ := List.exists_of_findSome?_eq_some h
        split at hf
        · exact extrair_cpf_valid _ _ hf
        · simp at hf
    · simp at h

/-- **C7.** Once the account is resolved and the extraction phase (direct
message or history scan) produced a checksum-valid identifier: (a) a
lookup returning no record still yields a `success: true` response whose
formatted message is the account's configured error text; (b) a failed
send still yields a `success: true` response while the logged outcome is
downgraded to `Parcial`. -/
theorem C7_lookup_absence_send_failure (accounts : AccountStore)
    (logs : LogStore) (req : WebhookRequest) (ext : ExternalResults)
    (now : String) (aid : String) (acc : Account) (cpf : List Char)
    (hacc : get_account_by_api_key accounts (effectiveApiKey req)
      = some (aid, acc))
    (hconv : (req.conversationId).getD "" ≠ "")
    (hcpf : (match (match req.mensagem with
        | some m => if m ≠ "" then extrair_cpf m.data else none
        | none => none) with
      | some c => some c
      | none =>
        match ext.mensagens with
        | some msgs => if msgs.isEmpty then none else scanMessages msgs
        | none => none) = some cpf) :
    (ext.lookup = none →
      (webhook_datacrazy accounts logs req ext now).1
        = .ok { cpf := cpf, dados := none,
                mensagem_formatada := acc.msg_erro.data,
                conversationId := (req.conversationId).getD "",
                mensagem_enviada := ext.send_ok, account := acc.name }) ∧
    (∀ msg, formatar_mensagem ext.lookup cpf acc = .ok msg →
      ext.send_ok = false →
      (webhook_datacrazy accounts logs req ext now).1
        = .ok { cpf := cpf, dados := ext.lookup,
                mensagem_formatada := msg,
                conversationId := (req.conversationId).getD "",
                mensagem_enviada := false, account := acc.name } ∧
      ∃ rest, alist_get (webhook_datacrazy accounts logs req ext now).2 aid
        = some (mkLogEntry now "CONSULTA" (String.mk cpf) "Parcial"
            ("Titular: " ++ (match ext.lookup with
              | some d => d.NOME.getD (d.nome.getD "")
              | none => "") ++ " (msg não enviada)")
            req.leadPhone req.leadName (resolveLogName accounts aid "")
            :: rest)) := by
  have hval : validar_cpf_rapido cpf = true := extracted_cpf_valid req ext cpf hcpf
  constructor
  · intro hlk
    cases hs : ext.send_ok <;>
      (simp only [webhook_datacrazy, hacc, webhook_resolved]
       rw [if_neg hconv, hcpf]
       simp [hval, hlk, formatar_mensagem, hs])
  · intro msg hfmt hs
    have h2 : webhook_datacrazy accounts logs req ext now
        = (.ok { cpf := cpf, dados := ext.lookup,
                 mensagem_formatada := msg,
                 conversationId := (req.conversationId).getD "",
                 mensagem_enviada := false, account := acc.name },
           add_log accounts logs aid "CONSULTA" (String.mk cpf) "Parcial"
             ("Titular: " ++ (match ext.lookup with
               | some d => d.NOME.getD (d.nome.getD "")
               | none => "") ++ " (msg não enviada)")
             req.leadPhone req.leadName "" now) := by
      simp only [webhook_datacrazy, hacc, webhook_resolved]
      rw [if_neg hconv, hcpf]
      simp [hval, hfmt, hs]
    refine ⟨?_, ?_⟩
    · rw [h2]
    · obtain ⟨rest, hr⟩ := add_log_head accounts logs aid "CONSULTA"
        (String.mk cpf) "Parcial"
        ("Titular: " ++ (match ext.lookup with
          | some d => d.NOME.getD (d.nome.getD "")
          | none => "") ++ " (msg não enviada)")
        req.leadPhone req.leadName "" now
      refine ⟨rest, ?_⟩
      rw [h2]
      exact hr

/-- Witness for C7: concrete account, direct message carrying a valid CPF,
lookup absent and send failed; the response is still `success: true` with
the account's configured error text. -/
theorem C7_lookup_absence_send_failure_witness :
    (webhook_datacrazy
        [("acc_1", { name := "Conta", crm_api_key := "k1",
                     message_template := "t", formato_cpf := "mascarado",
                     msg_erro := "sem dados", created_at := "2024" })] []
        { header_api_key := some "k1", body_crm_api_key := "",
          conversationId := some "c1", leadPhone := "p", leadName := "n",
          mensagem := some "meu cpf 111.444.777-35" }
        { mensagens := none, lookup := none, send_ok := false } "now").1
      = .ok { cpf := "11144477735".data, dados := none,
              mensagem_formatada := "sem dados".data,
              conversationId := "c1", mensagem_enviada := false,
              account := "Conta" } :=
  (C7_lookup_absence_send_failure _ _ _ _ "now" "acc_1"
    { name := "Conta", crm_api_key := "k1", message_template := "t",
      formato_cpf := "mascarado", msg_erro := "sem dados",
      created_at := "2024" }
    "11144477735".data (by decide) (by decide) (by decide)).1 rfl

/-- **C8.** A webhook request whose credential matches no stored account
gets the 401 "account not found" response and leaves the log store
unchanged: no entry is created for any account. -/
theorem C8_unknown_credential (accounts : AccountStore) (logs : LogStore)
    (req : WebhookRequest) (ext : ExternalResults) (now : String)
    (h : get_account_by_api_key accounts (effectiveApiKey req) = none) :
    webhook_datacrazy accounts logs req ext now
      = (.err 401 "Conta não encontrada para esta chave de API" none, logs) := by
  simp only [webhook_datacrazy, h]

/-- Witness for C8 on an empty account store. -/
theorem C8_unknown_credential_witness :
    webhook_datacrazy [] []
      { header_api_key := some "k", body_crm_api_key := "",
        conversationId := some "c", leadPhone := "p", leadName := "n",
        mensagem := some "m" }
      { mensagens := none, lookup := none, send_ok := false } "now"
      = (.err 401 "Conta não encontrada para esta chave de API" none, []) :=
  C8_unknown_credential [] [] _ _ "now" rfl

theorem alist_put_mem {α : Type} (l : List (String × α)) (k : String) (v : α) :
    (k, v) ∈ alist_put l k v := by
  unfold alist_put
  split
  · rename_i h
    rw [List.any_eq_true] at h
    obtain ⟨p, hp, hpk⟩ := h
    rw [List.mem_map]
    exact ⟨p, hp, by simp [hpk]⟩
  · simp

theorem find?_decomp {α : Type} (p : α → Bool) :
    ∀ (l : List α) (a : α), l.find? p = some a →
      ∃ l1 l2, l = l1 ++ a :: l2 ∧ ∀ x ∈ l1, p x = false := by
  intro l
  induction l with
  | nil => intro a h; simp at h
  | cons q l ih =>
    intro a h
    by_cases hq : p q = true
    · rw [List.find?_cons_of_pos _ hq] at h
      obtain rfl := Option.some.inj h
      exact ⟨[], l, rfl, by simp⟩
    · rw [List.find?_cons_of_neg _ hq] at h
      obtain ⟨l1, l2, hl, hl1⟩ := ih a h
      refine ⟨q :: l1, l2, by rw [hl, List.cons_append], ?_⟩
      intro x hx
      rcases List.mem_cons.mp hx with hx | hx
      · subst hx
        simpa using hq
      · exact hl1 x hx

theorem webhook_resolved_not_401 (accounts : AccountStore)
    (account_id : String) (account : Account) (logs : LogStore)
    (req : WebhookRequest) (ext : ExternalResults) (now : String)
    (e : String) (c : Option (List Char)) :
    (webhook_resolved accounts account_id account logs req ext now).1
      ≠ .err 401 e c := by
  unfold webhook_resolved
  repeat' split
  all_goals try simp
  repeat' split
  all_goals simp

/-- **C10.** Creating an account without supplying a credential stores the
empty string as its credential; a webhook request with no `X-CRM-API-Key`
header and no body credential then resolves, via lookup-by-credential with
the empty string, to the first empty-credential account in store order and
is processed under it, never failing with the 401 unknown-credential
error. -/
theorem C10_empty_credential_resolution (accounts : AccountStore)
    (logs : LogStore) (pname : Option String) (now_id now_iso : String)
    (req : WebhookRequest) (ext : ExternalResults) (now : String)
    (hh : req.header_api_key = none) (hb : req.body_crm_api_key = "") :
    ((alist_get (api_accounts_create accounts pname none now_id now_iso).1
        (api_accounts_create accounts pname none now_id now_iso).2).map
        (fun a => a.crm_api_key) = some "") ∧
    ∃ aid acc,
      get_account_by_api_key
          (api_accounts_create accounts pname none now_id now_iso).1 ""
        = some (aid, acc) ∧
      acc.crm_api_key = "" ∧
      (∃ l1 l2, (api_accounts_create accounts pname none now_id now_iso).1
          = l1 ++ (aid, acc) :: l2 ∧ ∀ q ∈ l1, q.2.crm_api_key ≠ "") ∧
      webhook_datacrazy (api_accounts_create accounts pname none now_id now_iso).1
          logs req ext now
        = webhook_resolved (api_accounts_create accounts pname none now_id now_iso).1
            aid acc logs req ext now ∧
      ∀ e c, (webhook_datacrazy
          (api_accounts_create accounts pname none now_id now_iso).1
          logs req ext now).1 ≠ .err 401 e c := by
  have hkey : effectiveApiKey req = "" := by
    simp [effectiveApiKey, hh, hb]
  have hget := alist_get_put accounts
    ("acc_" ++ now_id ++ "_" ++ toString accounts.length)
    ({ name := pname.getD "Nova Conta", crm_api_key := "",
       message_template := DEFAULT_TEMPLATE, formato_cpf := "mascarado",
       msg_erro := "Desculpe, não foi possível consultar os dados do CPF informado.",
       created_at := now_iso } : Account)
  refine ⟨?_, ?_⟩
  · simp only [api_accounts_create, Option.getD_none]
    rw [hget]
    rfl
  · have hmem := alist_put_mem accounts
      ("acc_" ++ now_id ++ "_" ++ toString accounts.length)
      ({ name := pname.getD "Nova Conta", crm_api_key := "",
         message_template := DEFAULT_TEMPLATE, formato_cpf := "mascarado",
         msg_erro := "Desculpe, não foi possível consultar os dados do CPF informado.",
         created_at := now_iso } : Account)
    have hsome : (get_account_by_api_key
        (api_accounts_create accounts pname none now_id now_iso).1 "").isSome := by
      rw [get_account_by_api_key, List.find?_isSome]
      refine ⟨("acc_" ++ now_id ++ "_" ++ toString accounts.length,
        { name := pname.getD "Nova Conta", crm_api_key := "",
          message_template := DEFAULT_TEMPLATE, formato_cpf := "mascarado",
          msg_erro := "Desculpe, não foi possível consultar os dados do CPF informado.",
          created_at := now_iso }), ?_, ?_⟩
      · simp only [api_accounts_create, Option.getD_none]
        exact hmem
      · rfl
    obtain ⟨pair, hpair⟩ := Option.isSome_iff_exists.mp hsome
    obtain ⟨aid, acc⟩ := pair
    have hp := List.find?_some hpair
    have hacc : acc.crm_api_key = "" := by simpa using hp
    refine ⟨aid, acc, hpair, hacc, ?_, ?_, ?_⟩
    · obtain ⟨l1, l2, hl, hl1⟩ := find?_decomp _ _ _ hpair
      refine ⟨l1, l2, hl, ?_⟩
      intro q hq
      have := hl1 q hq
      simpa using this
    · simp only [webhook_datacrazy, hkey, hpair]
    · intro e c
      have hwr : webhook_datacrazy
            (api_accounts_create accounts pname none now_id now_iso).1
            logs req ext now
          = webhook_resolved
            (api_accounts_create accounts pname none now_id now_iso).1
            aid acc logs req ext now := by
        simp only [webhook_datacrazy, hkey, hpair]
      rw [hwr]
      exact webhook_resolved_not_401 _ _ _ _ _ _ _ _ _

/-- Witness for C10: a store holding one account with credential `k`; an
account is created with no credential, and a credential-less webhook
request resolves to it instead of getting a 401. -/
theorem C10_empty_credential_resolution_witness :
    ((alist_get (api_accounts_create
        [("a0", { name := "Outra", crm_api_key := "k",
                  message_template := "t", formato_cpf := "mascarado",
                  msg_erro := "e", created_at := "2023" })]
        none none "20240101000000" "iso").1
      (api_accounts_create
        [("a0", { name := "Outra", crm_api_key := "k",
                  message_template := "t", formato_cpf := "mascarado",
                  msg_erro := "e", created_at := "2023" })]
        none none "20240101000000" "iso").2).map
        (fun a => a.crm_api_key) = some "") ∧
    ∃ aid acc,
      get_account_by_api_key
          (api_accounts_create
            [("a0", { name := "Outra", crm_api_key := "k",
                      message_template := "t", formato_cpf := "mascarado",
                      msg_erro := "e", created_at := "2023" })]
            none none "20240101000000" "iso").1 ""
        = some (aid, acc) ∧
      acc.crm_api_key = "" ∧
      (∃ l1 l2, (api_accounts_create
          [("a0", { name := "Outra", crm_api_key := "k",
                    message_template := "t", formato_cpf := "mascarado",
                    msg_erro := "e", created_at := "2023" })]
          none none "20240101000000" "iso").1
          = l1 ++ (aid, acc) :: l2 ∧ ∀ q ∈ l1, q.2.crm_api_key ≠ "") ∧
      webhook_datacrazy (api_accounts_create
          [("a0", { name := "Outra", crm_api_key := "k",
                    message_template := "t", formato_cpf := "mascarado",
                    msg_erro := "e", created_at := "2023" })]
          none none "20240101000000" "iso").1
          []
          { header_api_key := none, body_crm_api_key := "",
            conversationId := none, leadPhone := "p", leadName := "n",
            mensagem := none }
          { mensagens := none, lookup := none, send_ok := false } "now"
        = webhook_resolved (api_accounts_create
            [("a0", { name := "Outra", crm_api_key := "k",
                      message_template := "t", formato_cpf := "mascarado",
                      msg_erro := "e", created_at := "2023" })]
            none none "20240101000000" "iso").1
            aid acc []
            { header_api_key := none, body_crm_api_key := "",
              conversationId := none, leadPhone := "p", leadName := "n",
              mensagem := none }
            { mensagens := none, lookup := none, send_ok := false } "now" ∧
      ∀ e c, (webhook_datacrazy (api_accounts_create
          [("a0", { name := "Outra", crm_api_key := "k",
                    message_template := "t", formato_cpf := "mascarado",
                    msg_erro := "e", created_at := "2023" })]
          none none "20240101000000" "iso").1
          []
          { header_api_key := none, body_crm_api_key := "",
            conversationId := none, leadPhone := "p", leadName := "n",
            mensagem := none }
          { mensagens := none, lookup := none, send_ok := false } "now").1
        ≠ .err 401 e c :=
  C10_empty_credential_resolution
    [("a0", { name := "Outra", crm_api_key := "k",
              message_template := "t", formato_cpf := "mascarado",
              msg_erro := "e", created_at := "2023" })]
    [] none "20240101000000" "iso"
    { header_api_key := none, body_crm_api_key := "",
      conversationId := none, leadPhone := "p", leadName := "n",
      mensagem := none }
    { mensagens := none, lookup := none, send_ok := false } "now" rfl rfl

/-- One step of a read-modify-write mutation against a shared persisted
collection, as `app.py` structures it: `load` models
`load_accounts`/`load_logs` (app.py:72-78, 86-92 — no lock taken), `save`
models `save_accounts`/`save_logs` (app.py:80-84, 94-98 — the lock is held
only for the file write, making each save atomic but leaving the
load-mutate phase outside any lock). -/
inductive WStep
  | load
  | save
deriving DecidableEq

/-- In-flight state of two concurrent writers `A` (`false`) and `B`
(`true`) over one shared collection: the persisted snapshot plus each
writer's loaded copy. -/
structure RMWState (α : Type) where
  shared : α
  locA : Option α
  locB : Option α

/-- Execute one scheduled event: a load reads the persisted snapshot into
the writer's local copy; a save atomically persists the writer's mutation
applied to its loaded copy (the whole-collection rewrite of
`save_accounts`/`save_logs`). -/
def stepRMW {α : Type} (fA fB : α → α) (st : RMWState α) :
    Bool × WStep → RMWState α
  | (false, .load) => { st with locA := some st.shared }
  | (false, .save) => { st with shared := fA (st.locA.getD st.shared) }
  | (true, .load) => { st with locB := some st.shared }
  | (true, .save) => { st with shared := fB (st.locB.getD st.shared) }

/-- Run a schedule of events from an initial snapshot and return the final
persisted snapshot. -/
def runSchedule {α : Type} (fA fB : α → α) (start : α)
    (sched : List (Bool × WStep)) : α :=
  (sched.foldl (stepRMW fA fB)
    { shared := start, locA := none, locB := none }).shared

/-- The schedules the code's locking admits for two concurrent writers:
each writer performs its load then its save in program order, and saves
are atomic (all that `accounts_lock`/`logs_lock` guarantee); every
interleaving of the two load/save sequences is therefore possible. -/
def codeLockingSchedules : List (List (Bool × WStep)) :=
  [[(false, .load), (false, .save), (true, .load), (true, .save)],
   [(false, .load), (true, .load), (false, .save), (true, .save)],
   [(false, .load), (true, .load), (true, .save), (false, .save)],
   [(true, .load), (false, .load), (false, .save), (true, .save)],
   [(true, .load), (false, .load), (true, .save), (false, .save)],
   [(true, .load), (true, .save), (false, .load), (false, .save)]]

/-- The schedules permitted when the entire load-mutate-persist cycle is
one critical section, as the claim asserts: one writer's whole cycle
completes before the other's begins. -/
def serializedSchedules : List (List (Bool × WStep)) :=
  [[(false, .load), (false, .save), (true, .load), (true, .save)],
   [(true, .load), (true, .save), (false, .load), (false, .save)]]

/-- **C9 as stated fails**: the locks in `save_accounts`/`save_logs` cover
only the file write, not the whole load-mutate-persist cycle, so the code
admits the schedule load-A, load-B, save-A, save-B, which is not a
serialized execution — and under it writer A's update is lost: with A
prepending `a` and B prepending `b` to an initially empty collection, the
final snapshot is `[b]`, with `a` missing. -/
theorem C9_counterexample :
    [(false, WStep.load), (true, WStep.load), (false, WStep.save),
      (true, WStep.save)] ∈ codeLockingSchedules ∧
    [(false, WStep.load), (true, WStep.load), (false, WStep.save),
      (true, WStep.save)] ∉ serializedSchedules ∧
    runSchedule (fun l => "a" :: l) (fun l => "b" :: l) ([] : List String)
      [(false, WStep.load), (true, WStep.load), (false, WStep.save),
        (true, WStep.save)] = ["b"] ∧
    "a" ∉ runSchedule (fun l => "a" :: l) (fun l => "b" :: l)
      ([] : List String)
      [(false, WStep.load), (true, WStep.load), (false, WStep.save),
        (true, WStep.save)] :=
  ⟨by decide, by decide, rfl, by decide⟩

/-- **C9 (amended).** Only the persist step runs under the lock; the
load-mutate phase is outside it.  Every fully serialized two-writer
execution loses neither update (both writers' contributions reach the
final snapshot), but the code's save-only locking also admits
non-serialized schedules in which one writer's update is lost. -/
theorem C9_save_only_locking (s : List (Bool × WStep))
    (hs : s ∈ serializedSchedules) :
    ("a" ∈ runSchedule (fun l => "a" :: l) (fun l => "b" :: l)
        ([] : List String) s ∧
     "b" ∈ runSchedule (fun l => "a" :: l) (fun l => "b" :: l)
        ([] : List String) s) ∧
    ∃ s', s' ∈ codeLockingSchedules ∧ s' ∉ serializedSchedules ∧
      "a" ∉ runSchedule (fun l => "a" :: l) (fun l => "b" :: l)
        ([] : List String) s' := by
  have hex : ∃ s', s' ∈ codeLockingSchedules ∧ s' ∉ serializedSchedules ∧
      "a" ∉ runSchedule (fun l => "a" :: l) (fun l => "b" :: l)
        ([] : List String) s' :=
    ⟨[(false, .load), (true, .load), (false, .save), (true, .save)],
      by decide, by decide, by decide⟩
  rcases List.mem_cons.mp hs with rfl | hs'
  · exact ⟨⟨by decide, by decide⟩, hex⟩
  · rcases List.mem_cons.mp hs' with rfl | hs''
    · exact ⟨⟨by decide, by decide⟩, hex⟩
    · simp at hs''

/-- Witness for the amended C9 at the serialized schedule A-then-B. -/
theorem C9_save_only_locking_witness :
    ("a" ∈ runSchedule (fun l => "a" :: l) (fun l => "b" :: l)
        ([] : List String)
        [(false, WStep.load), (false, WStep.save), (true, WStep.load),
          (true, WStep.save)] ∧
     "b" ∈ runSchedule (fun l => "a" :: l) (fun l => "b" :: l)
        ([] : List String)
        [(false, WStep.load), (false, WStep.save), (true, WStep.load),
          (true, WStep.save)]) ∧
    ∃ s', s' ∈ codeLockingSchedules ∧ s' ∉ serializedSchedules ∧
      "a" ∉ runSchedule (fun l => "a" :: l) (fun l => "b" :: l)
        ([] : List String) s' :=
  C9_save_only_locking _ (by decide)

end Apicpf
